import Mathlib

/-!
Verification development for the `wgpu-async` buffer layer
(`src/async_buffer.rs`), a wrapper around `wgpu::Buffer` that turns the
callback-driven `map_async` platform API into an awaitable operation and
manages the two-step teardown of mapped views.

The embedding is shallow:
* the external wgpu platform types (`Buffer`, `BufferSlice`, `BufferView`,
  `BufferViewMut`, range-bound resolution, `get_mapped_range`, `unmap`) are
  modelled as pure Lean structures and functions following their documented
  wgpu semantics;
* the repository's own `async_buffer.rs` definitions are translated
  function-by-function;
* `AsyncDevice` lives in `src/async_device.rs`, which is not part of the
  provided sources, so it is modelled from the spec (see its doc comment);
* side effects on the platform (mapping requests, range acquisition, view
  finalization, unmap) are made explicit as an `Event` vocabulary, and the
  destructor bodies (`Drop` impls) are translated into the event lists they
  emit, in order.
-/

/-- `wgpu::MapMode`: the access mode requested for a mapping. -/
inductive MapMode
  | read
  | write
deriving DecidableEq, Repr

/-- Model of `wgpu::Buffer`: an identity (to distinguish distinct native
buffers) together with its byte contents; the byte capacity is the length of
`contents`. -/
structure WBuffer where
  id : Nat
  contents : List UInt8
deriving DecidableEq

/-- The byte capacity of a buffer (`wgpu::Buffer::size`). -/
def WBuffer.size (b : WBuffer) : Nat := b.contents.length

/-- One end of a `RangeBounds<BufferAddress>` argument. -/
inductive Bound
  | included (n : Nat)
  | excluded (n : Nat)
  | unbounded
deriving DecidableEq, Repr

/-- A `RangeBounds<BufferAddress>` value, as passed to `Buffer::slice`. -/
structure BufferBounds where
  lo : Bound
  hi : Bound
deriving DecidableEq, Repr

/-- Resolution of the start bound to a byte offset, following wgpu's
`range_to_offset_size`. -/
def resolveOffset : Bound → Nat
  | .included n => n
  | .excluded n => n + 1
  | .unbounded => 0

/-- Resolution of the end bound to an optional size (relative to the already
resolved offset), following wgpu's `range_to_offset_size`; `none` means
"to the end of the buffer". -/
def resolveSize (offset : Nat) : Bound → Option Nat
  | .included n => some (n + 1 - offset)
  | .excluded n => some (n - offset)
  | .unbounded => none

/-- Model of `wgpu::BufferSlice`: a reference to its parent buffer plus the
resolved offset and optional size. -/
structure WBufferSlice where
  buffer : WBuffer
  offset : Nat
  size : Option Nat
deriving DecidableEq

/-- `wgpu::Buffer::slice`: pure range-bound resolution producing a
`BufferSlice`; performs no device call. -/
def WBuffer.slice (b : WBuffer) (bounds : BufferBounds) : WBufferSlice :=
  let offset := resolveOffset bounds.lo
  ⟨b, offset, resolveSize offset bounds.hi⟩

/-- The concrete byte size a slice covers: its stored size, or the rest of
the buffer when the end bound was unbounded. -/
def WBufferSlice.resolvedSize (s : WBufferSlice) : Nat :=
  match s.size with
  | some n => n
  | none => s.buffer.size - s.offset

/-- Model of `wgpu::BufferView` (the read view handle returned by
`get_mapped_range`): dereferences to the mapped bytes. -/
structure WBufferView where
  bytes : List UInt8
deriving DecidableEq

/-- `len()` of the byte region a `BufferView` dereferences to. -/
def WBufferView.len (v : WBufferView) : Nat := v.bytes.length

/-- Model of `wgpu::BufferViewMut` (the handle returned by
`get_mapped_range_mut`). -/
structure WBufferViewMut where
  bytes : List UInt8
deriving DecidableEq

/-- `len()` of the byte region a `BufferViewMut` dereferences to. -/
def WBufferViewMut.len (v : WBufferViewMut) : Nat := v.bytes.length

/-- `wgpu::BufferSlice::get_mapped_range`: yields a view over exactly the
slice's byte range of the mapped buffer. -/
def WBufferSlice.get_mapped_range (s : WBufferSlice) : WBufferView :=
  ⟨(s.buffer.contents.drop s.offset).take s.resolvedSize⟩

/-- `wgpu::BufferSlice::get_mapped_range_mut`: mutable counterpart of
`get_mapped_range`. -/
def WBufferSlice.get_mapped_range_mut (s : WBufferSlice) : WBufferViewMut :=
  ⟨(s.buffer.contents.drop s.offset).take s.resolvedSize⟩

/-- `wgpu::BufferAsyncError`, the error a failed mapping callback reports.
The device-reported cause is modelled as an opaque tag so that "the error
carries the device-reported cause" is expressible as equality of values. -/
structure BufferAsyncError where
  cause : Nat
deriving DecidableEq, Repr

/-- Modelled from the spec: `AsyncDevice` (defined in `src/async_device.rs`,
which is not among the provided sources) is the shared, reference-counted
bridge-capability handle. Cloning it yields a handle to the same device, so
the handle is its identity here. -/
structure AsyncDevice where
  id : Nat
deriving DecidableEq, Repr

/-- `Clone::clone` on `AsyncDevice`: an `Arc`-style cheap clone denoting the
same underlying device. -/
def AsyncDevice.clone (d : AsyncDevice) : AsyncDevice := d

/-- Modelled from the spec: `AsyncDevice::do_async` registers a completion
callback with the device and returns an awaitable that resolves to the
outcome the device delivers to that callback. In the embedding the awaited
result is a function of the device-delivered outcome, which is passed in as
a parameter. -/
def AsyncDevice.do_async (_d : AsyncDevice)
    (outcome : Except BufferAsyncError Unit) : Except BufferAsyncError Unit :=
  outcome

/-- Modelled from the spec: the reference count of the shared `Arc` holding
the bridge capability. -/
structure ArcState where
  count : Nat
deriving DecidableEq, Repr

/-- Cloning an `Arc` handle increments the reference count. -/
def ArcState.clone (s : ArcState) : ArcState := ⟨s.count + 1⟩

/-- Dropping one `Arc` handle decrements the reference count. -/
def ArcState.dropOne (s : ArcState) : ArcState := ⟨s.count - 1⟩

/-- The shared object is still alive while some handle holds it. -/
def ArcState.valid (s : ArcState) : Prop := 0 < s.count

instance (s : ArcState) : Decidable s.valid := by
  unfold ArcState.valid
  infer_instance

/-- The side effects this layer performs on the platform, made explicit:
submitting a mapping request (`BufferSlice::map_async`), acquiring the
mapped range, dropping the inner raw view handle, and unmapping a buffer
(`Buffer::unmap`, which always acts on the entire buffer). -/
inductive Event
  | requestMap (mode : MapMode) (bufId offset : Nat) (size : Option Nat)
  | getMappedRange (bufId offset : Nat) (size : Option Nat)
  | dropInnerView (bufId : Nat)
  | unmap (bufId : Nat)
deriving DecidableEq, Repr

/-- Whether an event is an unmap (release) of some buffer. -/
def Event.isUnmap : Event → Bool
  | .unmap _ => true
  | _ => false

/-- Whether an event is a mapping-request submission. -/
def Event.isRequestMap : Event → Bool
  | .requestMap _ _ _ _ => true
  | _ => false

/-- Whether an event acquires a mapped range. -/
def Event.isGetMappedRange : Event → Bool
  | .getMappedRange _ _ _ => true
  | _ => false

/-- Whether an event finalizes an inner raw view handle. -/
def Event.isDropInnerView : Event → Bool
  | .dropInnerView _ => true
  | _ => false

/-- The per-buffer mapping state machine
(`Unmapped → Pending → Mapped → Unmapped`). -/
inductive MapState
  | unmapped
  | pending (mode : MapMode)
  | mapped (mode : MapMode) (offset : Nat) (size : Option Nat)
deriving DecidableEq, Repr

/-- Effect of one platform event on a buffer's mapping state. `unmap` acts
on the whole buffer and always returns it to `unmapped`; acquiring or
releasing a range view does not change the mapping state. -/
def applyEvent (st : MapState) (e : Event) : MapState :=
  match e with
  | .requestMap mode _ _ _ => .pending mode
  | .getMappedRange _ _ _ => st
  | .dropInnerView _ => st
  | .unmap _ => .unmapped

/-- Effect of a list of platform events, applied in order. -/
def applyEvents (st : MapState) (es : List Event) : MapState :=
  es.foldl applyEvent st

/-- `AsyncBuffer`: owns a `wgpu::Buffer` and a shared `AsyncDevice`
handle. -/
structure AsyncBuffer where
  device : AsyncDevice
  buffer : WBuffer
deriving DecidableEq

/-- `AsyncBuffer::wrap`: stores the device handle and the buffer. -/
def AsyncBuffer.wrap (device : AsyncDevice) (buffer : WBuffer) : AsyncBuffer :=
  ⟨device, buffer⟩

/-- Instrumented `AsyncBuffer::wrap`: the construction performs no platform
call, so it emits no events. -/
def AsyncBuffer.wrapEv (device : AsyncDevice) (buffer : WBuffer) :
    AsyncBuffer × List Event :=
  (AsyncBuffer.wrap device buffer, [])

/-- `Deref for AsyncBuffer`: dereferences to the wrapped `wgpu::Buffer`. -/
def AsyncBuffer.deref (b : AsyncBuffer) : WBuffer := b.buffer

/-- `AsyncBufferSlice`: a `wgpu::BufferSlice` together with the slice's own
clone of the device handle. -/
structure AsyncBufferSlice where
  device : AsyncDevice
  buffer_slice : WBufferSlice
deriving DecidableEq

/-- `AsyncBuffer::slice`: takes `self.buffer.slice(bounds)` and pairs it
with `self.device.clone()`. -/
def AsyncBuffer.slice (b : AsyncBuffer) (bounds : BufferBounds) :
    AsyncBufferSlice :=
  let buffer_slice := b.buffer.slice bounds
  ⟨b.device.clone, buffer_slice⟩

/-- Instrumented `AsyncBuffer::slice`: the body performs only pure range
resolution and an `Arc` clone, so it emits no platform events. -/
def AsyncBuffer.sliceEv (b : AsyncBuffer) (bounds : BufferBounds) :
    AsyncBufferSlice × List Event :=
  (b.slice bounds, [])

/-- `AsyncBufferSlice::wrap`. -/
def AsyncBufferSlice.wrap (device : AsyncDevice) (buffer_slice : WBufferSlice) :
    AsyncBufferSlice :=
  ⟨device, buffer_slice⟩

/-- `AsyncBufferView`: a back-reference to the owning `wgpu::Buffer` plus
the inner raw view handle (wrapped in `ManuallyDrop` in the source: the
wrapper is a no-op at value level; its effect is reflected in
`AsyncBufferView.dropTrace`). -/
structure AsyncBufferView where
  buffer : WBuffer
  buffer_view : WBufferView
deriving DecidableEq

/-- `AsyncBufferView::new`: acquires `buffer_slice.get_mapped_range()` and
stores `buffer_slice.buffer()` as the back-reference. Total: given a
successfully mapped slice, construction cannot fail. -/
def AsyncBufferView.new (buffer_slice : WBufferSlice) : AsyncBufferView :=
  let buffer_view := buffer_slice.get_mapped_range
  ⟨buffer_slice.buffer, buffer_view⟩

/-- `Deref for AsyncBufferView`. -/
def AsyncBufferView.deref (v : AsyncBufferView) : WBufferView := v.buffer_view

/-- The body of `Drop for AsyncBufferView`, as the ordered list of platform
events it performs: first `ManuallyDrop::drop(&mut self.buffer_view)`
(finalize the inner raw view handle), then `self.buffer.unmap()`. -/
def AsyncBufferView.dropTrace (v : AsyncBufferView) : List Event :=
  [Event.dropInnerView v.buffer.id, Event.unmap v.buffer.id]

/-- `AsyncBufferViewMut`: mutable counterpart of `AsyncBufferView`. -/
structure AsyncBufferViewMut where
  buffer : WBuffer
  buffer_view : WBufferViewMut
deriving DecidableEq

/-- `AsyncBufferViewMut::new`: acquires `get_mapped_range_mut()` and stores
`buffer_slice.buffer()` as the back-reference. -/
def AsyncBufferViewMut.new (buffer_slice : WBufferSlice) : AsyncBufferViewMut :=
  let buffer_view := buffer_slice.get_mapped_range_mut
  ⟨buffer_slice.buffer, buffer_view⟩

/-- `Deref for AsyncBufferViewMut`. -/
def AsyncBufferViewMut.deref (v : AsyncBufferViewMut) : WBufferViewMut :=
  v.buffer_view

/-- The body of `Drop for AsyncBufferViewMut`, as the ordered list of
platform events it performs: finalize the inner handle, then unmap. -/
def AsyncBufferViewMut.dropTrace (v : AsyncBufferViewMut) : List Event :=
  [Event.dropInnerView v.buffer.id, Event.unmap v.buffer.id]

/-- `AsyncBufferSlice::map_async`: submits the read-mode mapping request via
`do_async`, awaits the outcome; on failure propagates the device-reported
error (`?`), on success constructs the view. The returned event list records
the platform calls the body performs, in order. -/
def AsyncBufferSlice.map_async (s : AsyncBufferSlice)
    (outcome : Except BufferAsyncError Unit) :
    Except BufferAsyncError AsyncBufferView × List Event :=
  let register := Event.requestMap MapMode.read s.buffer_slice.buffer.id
    s.buffer_slice.offset s.buffer_slice.size
  match s.device.do_async outcome with
  | .error e => (.error e, [register])
  | .ok _ =>
    (.ok (AsyncBufferView.new s.buffer_slice),
      [register, Event.getMappedRange s.buffer_slice.buffer.id
        s.buffer_slice.offset s.buffer_slice.size])

/-- `AsyncBufferSlice::map_async_mut`: identical protocol with write mode,
producing an `AsyncBufferViewMut`. -/
def AsyncBufferSlice.map_async_mut (s : AsyncBufferSlice)
    (outcome : Except BufferAsyncError Unit) :
    Except BufferAsyncError AsyncBufferViewMut × List Event :=
  let register := Event.requestMap MapMode.write s.buffer_slice.buffer.id
    s.buffer_slice.offset s.buffer_slice.size
  match s.device.do_async outcome with
  | .error e => (.error e, [register])
  | .ok _ =>
    (.ok (AsyncBufferViewMut.new s.buffer_slice),
      [register, Event.getMappedRange s.buffer_slice.buffer.id
        s.buffer_slice.offset s.buffer_slice.size])

/-- `AsyncBuffer::map_async`: `let slice = self.slice(bounds);
slice.map_async().await`. -/
def AsyncBuffer.map_async (b : AsyncBuffer) (bounds : BufferBounds)
    (outcome : Except BufferAsyncError Unit) :
    Except BufferAsyncError AsyncBufferView × List Event :=
  let slice := b.slice bounds
  slice.map_async outcome

/-- `AsyncBuffer::map_async_mut`: `let slice = self.slice(bounds);
slice.map_async_mut().await`. -/
def AsyncBuffer.map_async_mut (b : AsyncBuffer) (bounds : BufferBounds)
    (outcome : Except BufferAsyncError Unit) :
    Except BufferAsyncError AsyncBufferViewMut × List Event :=
  let slice := b.slice bounds
  slice.map_async_mut outcome

/-- The ways the scope holding a view can exit. -/
inductive ExitPath
  | normal
  | earlyReturn
  | propagatedFailure
deriving DecidableEq, Repr

/-- Rust drop semantics: whichever way the scope holding the view exits, the
view's destructor runs exactly once, so the platform events performed at
scope exit on the view's behalf are its destructor's events, independent of
the exit path. -/
def scopeExitEvents (v : AsyncBufferView) : ExitPath → List Event :=
  fun _ => v.dropTrace

/-- Scope-exit events for a mutable view, independent of the exit path. -/
def scopeExitEventsMut (v : AsyncBufferViewMut) : ExitPath → List Event :=
  fun _ => v.dropTrace

/-- The complete operation surface of `AsyncBufferView`: the source gives it
only `Deref` (to `wgpu::BufferView`, whose target is a shared byte region),
and no `DerefMut` or `AsMut`, so the available operations are taking the
length and reading a byte. -/
inductive ViewOp
  | len
  | readByte (i : Nat)
deriving DecidableEq, Repr

/-- Results observable through a read-view operation. -/
inductive ViewOpResult
  | length (n : Nat)
  | byte (b : Option UInt8)
deriving DecidableEq, Repr

/-- Running a read-view operation: the observed result together with the
view (and through it the underlying buffer) after the operation. -/
def AsyncBufferView.runOp (v : AsyncBufferView) :
    ViewOp → ViewOpResult × AsyncBufferView
  | .len => (.length v.buffer_view.len, v)
  | .readByte i => (.byte (v.buffer_view.bytes.get? i), v)

/-- The ownership environment for range descriptors: `live` holds the ids of
`AsyncBufferSlice` values the caller still owns (a moved-out descriptor is
removed), `used` every id ever created. This reflects Rust's move semantics
for `map_async(self)` and `map_async_mut(self)`, which take the descriptor
by value. -/
structure DescWorld where
  live : List Nat
  used : List Nat
deriving DecidableEq, Repr

/-- Descriptor-level operations a caller can perform. -/
inductive DescOp
  | sliceNew (id : Nat)
  | consume (id : Nat) (mode : MapMode)
deriving DecidableEq, Repr

/-- Whether an operation initiates a mapping from the descriptor `id`. -/
def DescOp.isConsumeOf (id : Nat) : DescOp → Bool
  | .consume j _ => j = id
  | _ => false

/-- One step of descriptor life: `sliceNew` creates a descriptor with a
fresh id (a new value produced by `slice`); `consume` initiates a mapping
via `map_async`/`map_async_mut`, whose `self`-by-value signature moves the
descriptor out of the caller's environment. -/
inductive DescStep : DescWorld → DescOp → DescWorld → Prop
  | sliceNew {w : DescWorld} {id : Nat} (h : id ∉ w.used) :
      DescStep w (.sliceNew id) ⟨id :: w.live, id :: w.used⟩
  | consume {w : DescWorld} {id : Nat} {mode : MapMode} (h : id ∈ w.live) :
      DescStep w (.consume id mode) ⟨w.live.erase id, w.used⟩

/-- A sequence of descriptor steps. -/
inductive DescTrace : DescWorld → List DescOp → DescWorld → Prop
  | nil {w : DescWorld} : DescTrace w [] w
  | cons {w w' w'' : DescWorld} {op : DescOp} {ops : List DescOp} :
      DescStep w op w' → DescTrace w' ops w'' → DescTrace w (op :: ops) w''

/-- Well-formedness of the descriptor environment: every live descriptor was
created, and no id denotes two live descriptors. -/
def DescWorld.WF (w : DescWorld) : Prop :=
  (∀ x ∈ w.live, x ∈ w.used) ∧ w.live.Nodup

/-- A descriptor that has been moved out: created, but no longer owned. -/
def DescWorld.Consumed (w : DescWorld) (id : Nat) : Prop :=
  id ∈ w.used ∧ id ∉ w.live

lemma DescStep.preserves_wf {w w' : DescWorld} {op : DescOp}
    (hs : DescStep w op w') (hw : w.WF) : w'.WF := by
  rcases hw with ⟨hsub, hnd⟩
  cases hs with
  | sliceNew h =>
    refine ⟨?_, ?_⟩
    · intro x hx
      rcases List.mem_cons.mp hx with hx | hx
      · exact List.mem_cons.mpr (Or.inl hx)
      · exact List.mem_cons.mpr (Or.inr (hsub x hx))
    · exact List.Nodup.cons (fun hmem => h (hsub _ hmem)) hnd
  | consume h =>
    exact ⟨fun x hx => hsub x (List.mem_of_mem_erase hx), hnd.erase _⟩

lemma DescStep.preserves_consumed {w w' : DescWorld} {op : DescOp} {id : Nat}
    (hs : DescStep w op w') (hc : w.Consumed id) : w'.Consumed id := by
  rcases hc with ⟨hused, hlive⟩
  cases hs with
  | sliceNew h =>
    refine ⟨List.mem_cons.mpr (Or.inr hused), ?_⟩
    intro hmem
    rcases List.mem_cons.mp hmem with rfl | hmem
    · exact h hused
    · exact hlive hmem
  | consume h =>
    exact ⟨hused, fun hmem => hlive (List.mem_of_mem_erase hmem)⟩

lemma DescTrace.no_consume_after_consumed {w w' : DescWorld}
    {ops : List DescOp} {id : Nat}
    (ht : DescTrace w ops w') (hc : w.Consumed id) :
    ops.countP (DescOp.isConsumeOf id) = 0 := by
  induction ht with
  | nil => rfl
  | cons hs ht ih =>
    rename_i w₀ w₁ w₂ op ops'
    have hrest := ih (hs.preserves_consumed hc)
    have hop : DescOp.isConsumeOf id op = false := by
      cases hs with
      | sliceNew h => rfl
      | consume h =>
        rename_i j mode
        simp only [DescOp.isConsumeOf, decide_eq_false_iff_not]
        intro hji
        exact hc.2 (hji ▸ h)
    simp [List.countP_cons, hop, hrest]

lemma DescTrace.consume_at_most_once_of_wf {w w' : DescWorld}
    {ops : List DescOp} (hw : w.WF) (ht : DescTrace w ops w') (id : Nat) :
    ops.countP (DescOp.isConsumeOf id) ≤ 1 := by
  induction ht with
  | nil => simp
  | cons hs ht ih =>
    rename_i w₀ w₁ w₂ op ops'
    have hw₁ := hs.preserves_wf hw
    cases hs with
    | sliceNew h =>
      have := ih hw₁
      simpa [List.countP_cons, DescOp.isConsumeOf] using this
    | consume h =>
      rename_i j mode
      by_cases hji : j = id
      · subst hji
        have hcons : DescWorld.Consumed ⟨w₀.live.erase j, w₀.used⟩ j := by
          refine ⟨hw.1 j h, ?_⟩
          intro hmem
          exact ((hw.2.mem_erase_iff.mp hmem).1) rfl
        have hzero := ht.no_consume_after_consumed hcons
        simp [List.countP_cons, DescOp.isConsumeOf, hzero]
      · have := ih hw₁
        simpa [List.countP_cons, DescOp.isConsumeOf, hji] using this

/-- A concrete 4-byte buffer used by witness theorems. -/
def sampleBuffer : WBuffer := ⟨0, [17, 34, 51, 68]⟩

/-- A concrete device handle used by witness theorems. -/
def sampleDevice : AsyncDevice := ⟨0⟩

/-- A concrete wrapped buffer used by witness theorems. -/
def sampleAsyncBuffer : AsyncBuffer := AsyncBuffer.wrap sampleDevice sampleBuffer

/-- C1: destroying a successfully mapped view — on any exit path of the
caller's scope — performs exactly one release (unmap) call on the owning
buffer; the destructor's event list contains the unmap exactly once, and the
exit path does not change it. -/
theorem claim_C1_view_drop_releases_exactly_once
    (v : AsyncBufferView) (vm : AsyncBufferViewMut) (p q : ExitPath) :
    (scopeExitEvents v p).countP Event.isUnmap = 1 ∧
    (scopeExitEventsMut vm q).countP Event.isUnmap = 1 :=
  ⟨rfl, rfl⟩

/-- C2: in the finalization of a view (read or mutable), every unmap event
in the destructor's event list is strictly preceded by the finalization of
the inner raw view handle; the unmap is never performed first. -/
theorem claim_C2_inner_handle_finalized_before_unmap
    (v : AsyncBufferView) (vm : AsyncBufferViewMut) :
    (∀ j k, v.dropTrace.get? j = some (Event.unmap k) →
      ∃ i, i < j ∧ v.dropTrace.get? i = some (Event.dropInnerView v.buffer.id)) ∧
    (∀ j k, vm.dropTrace.get? j = some (Event.unmap k) →
      ∃ i, i < j ∧ vm.dropTrace.get? i = some (Event.dropInnerView vm.buffer.id)) := by
  constructor
  · intro j k h
    match j, h with
    | 0, h => simp [AsyncBufferView.dropTrace] at h
    | 1, h => exact ⟨0, Nat.zero_lt_one, rfl⟩
  · intro j k h
    match j, h with
    | 0, h => simp [AsyncBufferViewMut.dropTrace] at h
    | 1, h => exact ⟨0, Nat.zero_lt_one, rfl⟩

/-- Witness for C2 at a concrete view: the unmap sits at index 1 of the drop
trace and the inner-handle finalization is found strictly before it. -/
theorem claim_C2_witness :
    ∃ i, i < 1 ∧
      (AsyncBufferView.new (sampleBuffer.slice ⟨Bound.included 0, Bound.excluded 2⟩)).dropTrace.get? i =
        some (Event.dropInnerView (AsyncBufferView.new (sampleBuffer.slice ⟨Bound.included 0, Bound.excluded 2⟩)).buffer.id) :=
  (claim_C2_inner_handle_finalized_before_unmap
      (AsyncBufferView.new (sampleBuffer.slice ⟨Bound.included 0, Bound.excluded 2⟩))
      (AsyncBufferViewMut.new (sampleBuffer.slice ⟨Bound.included 0, Bound.excluded 2⟩))).1
    1 sampleBuffer.id (by rfl)

/-- C5: the buffer-level mapping entry points are exactly the composition of
`slice` with the descriptor's own mapping entry points, for every buffer,
range and device outcome, read and write alike. -/
theorem claim_C5_map_async_is_slice_then_map
    (b : AsyncBuffer) (bounds : BufferBounds)
    (outcome : Except BufferAsyncError Unit) :
    b.map_async bounds outcome = (b.slice bounds).map_async outcome ∧
    b.map_async_mut bounds outcome = (b.slice bounds).map_async_mut outcome :=
  ⟨rfl, rfl⟩

/-- C9: `wrap` only stores its arguments (it emits no platform events), the
handle dereferences to exactly the wrapped buffer, and therefore every
native operation invoked through the handle agrees with invoking it on the
native buffer directly. -/
theorem claim_C9_wrap_stores_and_forwards
    (d : AsyncDevice) (b : WBuffer) :
    (AsyncBuffer.wrapEv d b).1.device = d ∧
    (AsyncBuffer.wrapEv d b).1.buffer = b ∧
    (AsyncBuffer.wrapEv d b).2 = [] ∧
    (AsyncBuffer.wrap d b).deref = b ∧
    ∀ {α : Type} (f : WBuffer → α), f (AsyncBuffer.wrap d b).deref = f b :=
  ⟨rfl, rfl, rfl, rfl, fun _ => rfl⟩

/-- C10: the back-reference a view stores at construction is exactly the
slice's parent buffer, and the release performed by its destructor is an
unmap of that entire buffer: applied to any mapped state — whatever
sub-range was mapped — the drop trace returns the whole buffer to
`unmapped`. -/
theorem claim_C10_drop_unmaps_whole_buffer
    (s : WBufferSlice) (mode : MapMode) (off : Nat) (sz : Option Nat) :
    (AsyncBufferView.new s).buffer = s.buffer ∧
    (AsyncBufferViewMut.new s).buffer = s.buffer ∧
    applyEvents (MapState.mapped mode off sz) (AsyncBufferView.new s).dropTrace =
      MapState.unmapped ∧
    applyEvents (MapState.mapped mode off sz) (AsyncBufferViewMut.new s).dropTrace =
      MapState.unmapped :=
  ⟨rfl, rfl, rfl, rfl⟩

/-- C8: every operation available on a read view leaves the view and the
underlying buffer bytes unchanged: the operation surface is read-only. -/
theorem claim_C8_read_view_never_mutates
    (v : AsyncBufferView) (op : ViewOp) :
    (v.runOp op).2 = v ∧ (v.runOp op).2.buffer.contents = v.buffer.contents := by
  cases op <;> exact ⟨rfl, rfl⟩

/-- C4: when the device reports failure, `map_async` and `map_async_mut`
resolve to exactly the device-reported error, construct no view, and the
only platform event on the error path is the single mapping request: no
retry (exactly one request), no unmap, no mapped-range acquisition. -/
theorem claim_C4_failure_surfaced_without_state_change
    (s : AsyncBufferSlice) (e : BufferAsyncError) :
    (s.map_async (Except.error e)).1 = Except.error e ∧
    (s.map_async_mut (Except.error e)).1 = Except.error e ∧
    (s.map_async (Except.error e)).2 =
      [Event.requestMap MapMode.read s.buffer_slice.buffer.id
        s.buffer_slice.offset s.buffer_slice.size] ∧
    (s.map_async_mut (Except.error e)).2 =
      [Event.requestMap MapMode.write s.buffer_slice.buffer.id
        s.buffer_slice.offset s.buffer_slice.size] ∧
    (s.map_async (Except.error e)).2.countP Event.isRequestMap = 1 ∧
    (s.map_async_mut (Except.error e)).2.countP Event.isRequestMap = 1 ∧
    (s.map_async (Except.error e)).2.countP Event.isUnmap = 0 ∧
    (s.map_async_mut (Except.error e)).2.countP Event.isUnmap = 0 ∧
    (s.map_async (Except.error e)).2.countP Event.isGetMappedRange = 0 ∧
    (s.map_async_mut (Except.error e)).2.countP Event.isGetMappedRange = 0 :=
  ⟨rfl, rfl, rfl, rfl, rfl, rfl, rfl, rfl, rfl, rfl⟩

/-- C3: for any in-capacity range `[start, start+len)`, awaiting
`slice(range).map_async()` resolves either to the device-reported error, or
— whenever the device reports success — to a view whose length is exactly
`len`; in the success case the view construction itself never fails. -/
theorem claim_C3_mapped_view_has_requested_length
    (b : AsyncBuffer) (start len : Nat)
    (outcome : Except BufferAsyncError Unit)
    (h : start + len ≤ b.buffer.size) :
    (∀ e, outcome = Except.error e →
      ((b.slice ⟨Bound.included start, Bound.excluded (start + len)⟩).map_async outcome).1 =
        Except.error e) ∧
    (outcome = Except.ok () →
      ∃ v, ((b.slice ⟨Bound.included start, Bound.excluded (start + len)⟩).map_async outcome).1 =
          Except.ok v ∧ v.buffer_view.len = len) := by
  constructor
  · intro e he
    subst he
    rfl
  · intro hok
    subst hok
    refine ⟨AsyncBufferView.new
      (b.slice ⟨Bound.included start, Bound.excluded (start + len)⟩).buffer_slice, rfl, ?_⟩
    simp only [AsyncBufferView.new, WBufferSlice.get_mapped_range, WBufferView.len,
      AsyncBuffer.slice, WBuffer.slice, resolveOffset, resolveSize,
      WBufferSlice.resolvedSize, WBuffer.size] at h ⊢
    rw [List.length_take, List.length_drop]
    omega

/-- Witness for C3: on the concrete 4-byte sample buffer, mapping the range
`[1, 3)` with a successful device outcome yields a view of length 2. -/
theorem claim_C3_witness :
    ∃ v, ((sampleAsyncBuffer.slice ⟨Bound.included 1, Bound.excluded (1 + 2)⟩).map_async
        (Except.ok ())).1 = Except.ok v ∧ v.buffer_view.len = 2 :=
  (claim_C3_mapped_view_has_requested_length sampleAsyncBuffer 1 2 (Except.ok ())
    (by decide)).2 rfl

/-- C6: a range descriptor is one-shot. In any sequence of descriptor steps
from the empty environment — where `slice` creates fresh descriptors and the
`self`-by-value mapping calls move the descriptor out of the caller's
environment — at most one mapping operation is ever initiated from any
given descriptor. -/
theorem claim_C6_descriptor_is_one_shot
    (ops : List DescOp) (w : DescWorld)
    (ht : DescTrace ⟨[], []⟩ ops w) (id : Nat) :
    ops.countP (DescOp.isConsumeOf id) ≤ 1 :=
  DescTrace.consume_at_most_once_of_wf ⟨fun x hx => absurd hx (List.not_mem_nil x), List.nodup_nil⟩ ht id

/-- Witness for C6: a concrete two-step trace creating descriptor 0 and
consuming it once; the count of mapping initiations from descriptor 0 is at
most one. -/
theorem claim_C6_witness :
    List.countP (DescOp.isConsumeOf 0)
      [DescOp.sliceNew 0, DescOp.consume 0 MapMode.read] ≤ 1 :=
  claim_C6_descriptor_is_one_shot
    [DescOp.sliceNew 0, DescOp.consume 0 MapMode.read]
    ⟨List.erase [0] 0, [0]⟩
    (DescTrace.cons (DescStep.sliceNew (by simp))
      (DescTrace.cons (DescStep.consume (by simp)) DescTrace.nil)) 0

/-- C7: `slice` is pure — it emits no platform events, so it leaves any
mapping state unchanged — the produced descriptor references exactly the
parent's underlying buffer, it carries its own clone of the same bridge
handle, and since the clone holds its own reference count, the bridge
capability stays valid after the originating handle is dropped. -/
theorem claim_C7_slice_pure_and_device_shared
    (b : AsyncBuffer) (bounds : BufferBounds) (st : MapState) (arc : ArcState)
    (h : arc.valid) :
    (b.sliceEv bounds).2 = [] ∧
    applyEvents st (b.sliceEv bounds).2 = st ∧
    (b.slice bounds).buffer_slice = b.buffer.slice bounds ∧
    (b.slice bounds).buffer_slice.buffer = b.buffer ∧
    (b.slice bounds).device = b.device.clone ∧
    (b.slice bounds).device = b.device ∧
    (arc.clone.dropOne).valid := by
  refine ⟨rfl, rfl, rfl, rfl, rfl, rfl, ?_⟩
  simp only [ArcState.valid, ArcState.clone, ArcState.dropOne] at h ⊢
  omega

/-- Witness for C7 at concrete inputs: slicing the sample buffer over its
full range emits no events, and a bridge handle with one reference stays
valid after a clone followed by dropping the original. -/
theorem claim_C7_witness :
    (sampleAsyncBuffer.sliceEv ⟨Bound.unbounded, Bound.unbounded⟩).2 = [] ∧
    applyEvents MapState.unmapped
      (sampleAsyncBuffer.sliceEv ⟨Bound.unbounded, Bound.unbounded⟩).2 = MapState.unmapped ∧
    (sampleAsyncBuffer.slice ⟨Bound.unbounded, Bound.unbounded⟩).buffer_slice =
      sampleBuffer.slice ⟨Bound.unbounded, Bound.unbounded⟩ ∧
    (sampleAsyncBuffer.slice ⟨Bound.unbounded, Bound.unbounded⟩).buffer_slice.buffer =
      sampleBuffer ∧
    (sampleAsyncBuffer.slice ⟨Bound.unbounded, Bound.unbounded⟩).device =
      sampleDevice.clone ∧
    (sampleAsyncBuffer.slice ⟨Bound.unbounded, Bound.unbounded⟩).device = sampleDevice ∧
    (ArcState.clone ⟨1⟩).dropOne.valid :=
  claim_C7_slice_pure_and_device_shared sampleAsyncBuffer
    ⟨Bound.unbounded, Bound.unbounded⟩ MapState.unmapped ⟨1⟩ (by decide)
